import Mathlib

/-!
Verification of the scroll-indicators engine (muminoco/scroll-indicators).

The repository ships several variants of the same plugin concatenated in its
source files.  We shallowly embed the JavaScript functions the claims are
about:

* src/utils.js        : isAtStart, isAtEnd, validatePosition,
                        validateClickTargetPosition, parseScrollAmount,
                        performScroll
* src/events.js       : updateIndicatorVisibility (guarded first variant and
                        the unguarded second copy)
* src/core/utils.js   : getScrollInfo, parseCSSValue, getItemPositions,
                        getCurrentItemIndex, calculateNextItemScroll,
                        initializeScrollIndicators
* src/unnamed/part_001: updateIndicators
* src/config.js       : CONFIG constants and the ScrollIndicators registry
                        (addContainer)

Conventions of the embedding:

* JavaScript numbers are modelled as rationals; parseFloat is modelled over
  finite decimal literals (the Infinity literal and hex forms are out of
  scope), with NaN rendered as Option.none.
* DOM reads (scrollLeft, clientWidth, computed font sizes, item offsets) are
  passed in as explicit arguments.
* classList is a token list with set semantics for add and removal of all
  occurrences for remove.
* console.warn output, where a claim mentions it, is returned as a list of
  strings; debug logging is not modelled.
* The self-recursion of parseScrollAmount is modelled with explicit fuel;
  Option.none means the call did not finish within the given recursion
  budget (for the divergent input no budget suffices).
-/

/-- JavaScript whitespace (ASCII subset) used by String.prototype.trim. -/
def isJsSpace (c : Char) : Bool :=
  c = ' ' ∨ c = '\t' ∨ c = '\n' ∨ c = '\r' ∨ c = '\x0b' ∨ c = '\x0c'

/-- Model of JavaScript String.prototype.trim. -/
def jsTrim (s : String) : String :=
  ⟨((s.data.dropWhile isJsSpace).reverse.dropWhile isJsSpace).reverse⟩

/-- Model of JavaScript String.prototype.toLowerCase (ASCII). -/
def jsToLowerCase (s : String) : String :=
  ⟨s.data.map Char.toLower⟩

/-- Model of JavaScript String.prototype.endsWith. -/
def jsEndsWith (s suf : String) : Bool :=
  List.isSuffixOf suf.data s.data

/-- Digits of a character list interpreted as a natural number. -/
def digitsToNat (ds : List Char) : Nat :=
  ds.foldl (fun a c => a * 10 + (c.toNat - 48)) 0

/-- Model of JavaScript parseFloat over finite decimal literals: optional
sign, digits with an optional fraction, optional exponent; the longest valid
numeric prefix is used and none models NaN. -/
def parseFloat (s : String) : Option ℚ :=
  let cs0 := s.data.dropWhile isJsSpace
  let signRest : ℚ × List Char :=
    match cs0 with
    | '-' :: rest => (-1, rest)
    | '+' :: rest => (1, rest)
    | _ => (1, cs0)
  let sign := signRest.1
  let cs1 := signRest.2
  let intDs := cs1.takeWhile Char.isDigit
  let cs2 := cs1.dropWhile Char.isDigit
  let fracRest : List Char × List Char :=
    match cs2 with
    | '.' :: rest => (rest.takeWhile Char.isDigit, rest.dropWhile Char.isDigit)
    | _ => ([], cs2)
  let fracDs := fracRest.1
  let cs3 := fracRest.2
  if intDs.isEmpty ∧ fracDs.isEmpty then none
  else
    let mant : ℚ := (digitsToNat intDs : ℚ) + (digitsToNat fracDs : ℚ) / ((10 : ℚ) ^ fracDs.length)
    let scaled : ℚ :=
      match cs3 with
      | c :: rest =>
        if c = 'e' ∨ c = 'E' then
          let expRest : Bool × List Char :=
            match rest with
            | '-' :: r => (true, r)
            | '+' :: r => (false, r)
            | _ => (false, rest)
          let eds := expRest.2.takeWhile Char.isDigit
          if eds.isEmpty then mant
          else if expRest.1 then mant / ((10 : ℚ) ^ digitsToNat eds)
          else mant * ((10 : ℚ) ^ digitsToNat eds)
        else mant
      | [] => mant
    some (sign * scaled)

/-- CONFIG.DEFAULT_SCROLL of src/config.js. -/
structure DefaultScroll where
  FIXED_AMOUNT : String
  SCROLL_TO_END : Bool
deriving DecidableEq

/-- The shipped configuration value (src/config.js). -/
def CONFIG_DEFAULT_SCROLL : DefaultScroll :=
  { FIXED_AMOUNT := "25%", SCROLL_TO_END := false }

/-- CONFIG.CSS_CLASSES of src/config.js. -/
structure CssClasses where
  VISIBLE : String
  HIDDEN : String
  IS_CLICK_TARGET : String

/-- The shipped class names (src/config.js). -/
def CSS : CssClasses :=
  { VISIBLE := "is-visible", HIDDEN := "is-hidden", IS_CLICK_TARGET := "is-click-target" }

/-- Live geometry of a scrollable DOM element, read at call time. -/
structure ScrollMetrics where
  scrollLeft : ℚ
  scrollTop : ℚ
  scrollWidth : ℚ
  scrollHeight : ℚ
  clientWidth : ℚ
  clientHeight : ℚ
deriving DecidableEq

/-- Geometry of the container element used for percentage distances. -/
structure ContainerGeom where
  clientWidth : ℚ
  clientHeight : ℚ
deriving DecidableEq

/-- Function isAtStart of src/utils.js: the element is at scroll start when
the offset along the axis is within the threshold. -/
def isAtStart (threshold : ℚ) (element : ScrollMetrics) (direction : String) : Bool :=
  let scrollPosition := if direction = "horizontal" then element.scrollLeft else element.scrollTop
  decide (scrollPosition ≤ threshold)

/-- Function isAtEnd of src/utils.js: the element is at scroll end when the
offset is within the threshold of scrollWidth - clientWidth (resp. the
vertical pair); the difference is not clamped. -/
def isAtEnd (threshold : ℚ) (element : ScrollMetrics) (direction : String) : Bool :=
  if direction = "horizontal" then
    let maxScroll := element.scrollWidth - element.clientWidth
    decide (element.scrollLeft ≥ maxScroll - threshold)
  else
    let maxScroll := element.scrollHeight - element.clientHeight
    decide (element.scrollTop ≥ maxScroll - threshold)

/-- Modelled from the spec: isElementVisible is imported by src/events.js
from src/utils.js but its definition is not among the sources.  Per the spec
the refresh is skipped when the region is not currently visible/rendered,
that is when it has zero rendered extent (collapsed), so the element is
visible iff both client extents are positive. -/
def isElementVisible (element : ScrollMetrics) : Bool :=
  decide (0 < element.clientWidth ∧ 0 < element.clientHeight)

/-- Scroll info record returned by getScrollInfo of src/core/utils.js. -/
structure ScrollInfo where
  current : ℚ
  max : ℚ
  isAtStart : Bool
  isAtEnd : Bool
  containerSize : ℚ
deriving DecidableEq

/-- Function getScrollInfo of src/core/utils.js: live scroll metrics for a
container along its axis; maxScroll is the unclamped difference of content
and viewport extents. -/
def getScrollInfo (threshold : ℚ) (container : ScrollMetrics) (direction : Option String) : ScrollInfo :=
  if direction = some "horizontal" then
    let scrollLeft := container.scrollLeft
    let maxScroll := container.scrollWidth - container.clientWidth
    { current := scrollLeft
      max := maxScroll
      isAtStart := decide (scrollLeft ≤ threshold)
      isAtEnd := decide (scrollLeft ≥ maxScroll - threshold)
      containerSize := container.clientWidth }
  else
    let scrollTop := container.scrollTop
    let maxScroll := container.scrollHeight - container.clientHeight
    { current := scrollTop
      max := maxScroll
      isAtStart := decide (scrollTop ≤ threshold)
      isAtEnd := decide (scrollTop ≥ maxScroll - threshold)
      containerSize := container.clientHeight }

/-- Model of DOMTokenList.add: appends the token when absent. -/
def classListAdd (classes : List String) (cls : String) : List String :=
  if cls ∈ classes then classes else classes ++ [cls]

/-- Model of DOMTokenList.remove: drops every occurrence of the token. -/
def classListRemove (classes : List String) (cls : String) : List String :=
  classes.filter (fun c => c ≠ cls)

/-- An indicator or click-target element: its raw side attribute and its
current class list. -/
structure IndicatorEl where
  position : Option String
  classes : List String
deriving DecidableEq

/-- Function validatePosition of src/utils.js: trims and lowercases the raw
position attribute and accepts only start or end. -/
def validatePosition (position : Option String) : Option String :=
  match position with
  | none => none
  | some p =>
    if jsTrim p = "" then none
    else
      let trimmedPosition := jsToLowerCase (jsTrim p)
      if trimmedPosition = "start" ∨ trimmedPosition = "end" then some trimmedPosition
      else none

/-- Function validateClickTargetPosition of src/utils.js: same validation as
validatePosition, applied to the click-target attribute. -/
def validateClickTargetPosition (position : Option String) : Option String :=
  match position with
  | none => none
  | some p =>
    if jsTrim p = "" then none
    else
      let trimmedPosition := jsToLowerCase (jsTrim p)
      if trimmedPosition = "start" ∨ trimmedPosition = "end" then some trimmedPosition
      else none

/-- The class update block shared by both element loops of
updateIndicatorVisibility in src/events.js: remove the opposite class, add
the one matching the computed visibility. -/
def applyVisibilityClasses (shouldBeVisible : Bool) (classes : List String) : List String :=
  if shouldBeVisible then
    classListAdd (classListRemove classes CSS.HIDDEN) CSS.VISIBLE
  else
    classListAdd (classListRemove classes CSS.VISIBLE) CSS.HIDDEN

/-- Function updateIndicatorVisibility of src/events.js (first variant,
lines 7-67): skips with false when the element is not visible, otherwise
recomputes both boundary flags and rewrites the classes of every indicator
and click target whose side attribute validates. -/
def updateIndicatorVisibility (threshold : ℚ) (scrollableElement : ScrollMetrics)
    (indicators clickTargets : List IndicatorEl) (direction : String) :
    Bool × List IndicatorEl × List IndicatorEl :=
  if !isElementVisible scrollableElement then (false, indicators, clickTargets)
  else
    let atStart := isAtStart threshold scrollableElement direction
    let atEnd := isAtEnd threshold scrollableElement direction
    let updatedIndicators := indicators.map (fun indicator =>
      match validatePosition indicator.position with
      | none => indicator
      | some position =>
        let shouldBeVisible :=
          if position = "start" then !atStart
          else if position = "end" then !atEnd
          else false
        { indicator with classes := applyVisibilityClasses shouldBeVisible indicator.classes })
    let updatedClickTargets := clickTargets.map (fun clickTarget =>
      match validateClickTargetPosition clickTarget.position with
      | none => clickTarget
      | some position =>
        let shouldBeVisible :=
          if position = "start" then !atStart
          else if position = "end" then !atEnd
          else false
        { clickTarget with classes := applyVisibilityClasses shouldBeVisible clickTarget.classes })
    (true, updatedIndicators, updatedClickTargets)

/-- Function updateIndicatorVisibility, second copy in src/events.js (lines
208-261): identical class logic but with no visibility guard and no boolean
result; it always recomputes and rewrites classes. -/
def updateIndicatorVisibilityOld (threshold : ℚ) (scrollableElement : ScrollMetrics)
    (indicators clickTargets : List IndicatorEl) (direction : String) :
    List IndicatorEl × List IndicatorEl :=
  let atStart := isAtStart threshold scrollableElement direction
  let atEnd := isAtEnd threshold scrollableElement direction
  let updatedIndicators := indicators.map (fun indicator =>
    match validatePosition indicator.position with
    | none => indicator
    | some position =>
      let shouldBeVisible :=
        if position = "start" then !atStart
        else if position = "end" then !atEnd
        else false
      { indicator with classes := applyVisibilityClasses shouldBeVisible indicator.classes })
  let updatedClickTargets := clickTargets.map (fun clickTarget =>
    match validateClickTargetPosition clickTarget.position with
    | none => clickTarget
    | some position =>
      let shouldBeVisible :=
        if position = "start" then !atStart
        else if position = "end" then !atEnd
        else false
      { clickTarget with classes := applyVisibilityClasses shouldBeVisible clickTarget.classes })
  (updatedIndicators, updatedClickTargets)

/-- A container of the src/unnamed variant: the scrollable element itself
carries the direction attribute and owns its indicator elements. -/
structure ContainerB where
  direction : Option String
  metrics : ScrollMetrics
  indicators : List IndicatorEl
deriving DecidableEq

/-- Function getIndicators of src/core/utils.js: the elements whose position
attribute equals the given value exactly (attribute-value selector). -/
def getIndicators (indicators : List IndicatorEl) (position : String) : List IndicatorEl :=
  indicators.filter (fun i => i.position = some position)

/-- Function updateIndicators of src/unnamed/part_001: recomputes the scroll
info and rewrites the classes of the start indicators from isAtStart and of
the end indicators from isAtEnd; other elements are untouched.  The two
forEach loops over the disjoint selections are rendered as one map. -/
def updateIndicators (threshold : ℚ) (container : ContainerB) : ContainerB :=
  let scrollInfo := getScrollInfo threshold container.metrics container.direction
  { container with indicators := container.indicators.map (fun indicator =>
      if indicator.position = some "start" then
        if scrollInfo.isAtStart then
          { indicator with classes := classListAdd (classListRemove indicator.classes CSS.VISIBLE) CSS.HIDDEN }
        else
          { indicator with classes := classListRemove (classListAdd indicator.classes CSS.VISIBLE) CSS.HIDDEN }
      else if indicator.position = some "end" then
        if scrollInfo.isAtEnd then
          { indicator with classes := classListAdd (classListRemove indicator.classes CSS.VISIBLE) CSS.HIDDEN }
        else
          { indicator with classes := classListRemove (classListAdd indicator.classes CSS.VISIBLE) CSS.HIDDEN }
      else indicator) }

/-- Result of parseScrollAmount of src/utils.js: the sentinel string end (a
jump to the absolute boundary) or a pixel magnitude. -/
inductive ScrollAmountResult where
  | toEnd
  | px (v : ℚ)
deriving DecidableEq

/-- Function parseScrollAmount of src/utils.js.  Fuel bounds the recursive
fallbacks to the configured default; none models a call that exhausts every
budget, i.e. unbounded recursion (a stack overflow in JavaScript).  The
element argument is represented by its computed font size, the document root
by rootFontSize, and the container by its client geometry (absent when the
caller passes no container). -/
def parseScrollAmount (fuel : Nat) (ds : DefaultScroll) (scrollAmount : Option String)
    (elementFontSize rootFontSize : ℚ) (direction : Option String)
    (container : Option ContainerGeom) : Option ScrollAmountResult :=
  match fuel with
  | 0 => none
  | fuel + 1 =>
    if scrollAmount.isNone ∨ jsTrim (scrollAmount.getD "") = "" then
      if ds.SCROLL_TO_END then some .toEnd
      else parseScrollAmount fuel ds (some ds.FIXED_AMOUNT) elementFontSize rootFontSize direction container
    else
      let amount := jsToLowerCase (jsTrim (scrollAmount.getD ""))
      if amount = "end" then some .toEnd
      else if jsEndsWith amount "px" then
        match parseFloat amount with
        | none => parseScrollAmount fuel ds (some ds.FIXED_AMOUNT) elementFontSize rootFontSize direction container
        | some pixels => some (.px |pixels|)
      else if jsEndsWith amount "%" then
        match parseFloat amount with
        | none => parseScrollAmount fuel ds (some ds.FIXED_AMOUNT) elementFontSize rootFontSize direction container
        | some percentage =>
          match container with
          | none => parseScrollAmount fuel ds (some ds.FIXED_AMOUNT) elementFontSize rootFontSize direction container
          | some c =>
            let containerSize := if direction = some "horizontal" then c.clientWidth else c.clientHeight
            some (.px |percentage / 100 * containerSize|)
      else if jsEndsWith amount "rem" then
        match parseFloat amount with
        | none => parseScrollAmount fuel ds (some ds.FIXED_AMOUNT) elementFontSize rootFontSize direction container
        | some rems => some (.px |rems * rootFontSize|)
      else if jsEndsWith amount "em" then
        match parseFloat amount with
        | none => parseScrollAmount fuel ds (some ds.FIXED_AMOUNT) elementFontSize rootFontSize direction container
        | some ems => some (.px |ems * elementFontSize|)
      else parseScrollAmount fuel ds (some ds.FIXED_AMOUNT) elementFontSize rootFontSize direction container

/-- The options record handed to Element.scrollTo by performScroll. -/
structure ScrollToOptions where
  behavior : String
  left : Option ℚ
  top : Option ℚ
deriving DecidableEq

/-- Function performScroll of src/utils.js: resolves the distance spec and
computes the scrollTo options.  A boundary jump targets offset 0 or the full
content extent; a pixel amount is applied with the side sign and only
clamped from below by Math.max(0, _).  none propagates a resolver that never
finished. -/
def performScroll (fuel : Nat) (ds : DefaultScroll) (element : ScrollMetrics)
    (direction : Option String) (scrollAmount : Option String) (indicatorPosition : String)
    (elementFontSize rootFontSize : ℚ) (container : Option ContainerGeom) :
    Option ScrollToOptions :=
  match parseScrollAmount fuel ds scrollAmount elementFontSize rootFontSize direction container with
  | none => none
  | some parsedAmount =>
    some (match parsedAmount with
      | .toEnd =>
        if direction = some "horizontal" then
          { behavior := "smooth"
            left := some (if indicatorPosition = "start" then 0 else element.scrollWidth)
            top := none }
        else
          { behavior := "smooth"
            left := none
            top := some (if indicatorPosition = "start" then 0 else element.scrollHeight) }
      | .px parsed =>
        let currentPosition := if direction = some "horizontal" then element.scrollLeft else element.scrollTop
        let scrollDirection : ℚ := if indicatorPosition = "start" then -1 else 1
        let newPosition := currentPosition + parsed * scrollDirection
        if direction = some "horizontal" then
          { behavior := "smooth", left := some (max 0 newPosition), top := none }
        else
          { behavior := "smooth", left := none, top := some (max 0 newPosition) })

/-- Function parseCSSValue of src/core/utils.js: resolves a CSS length
string against the sizing context, preserving the sign of the number; the
final fallback maps NaN to 0, but the unit branches return NaN (none) when
the number does not parse. -/
def parseCSSValue (value : String) (containerSize rootFontSize bodyFontSize
    innerWidth innerHeight : ℚ) : Option ℚ :=
  let value := jsTrim value
  if jsEndsWith value "px" then parseFloat value
  else if jsEndsWith value "%" then (parseFloat value).map (fun v => v / 100 * containerSize)
  else if jsEndsWith value "rem" then (parseFloat value).map (fun v => v * rootFontSize)
  else if jsEndsWith value "em" then (parseFloat value).map (fun v => v * bodyFontSize)
  else if jsEndsWith value "vw" then (parseFloat value).map (fun v => v / 100 * innerWidth)
  else if jsEndsWith value "vh" then (parseFloat value).map (fun v => v / 100 * innerHeight)
  else some ((parseFloat value).getD 0)

/-- An item element tagged as a scroll unit, with its two layout offsets. -/
structure Item where
  offsetLeft : ℚ
  offsetTop : ℚ
deriving DecidableEq

/-- Function getItemPositions of src/core/utils.js: the offset of each item
along the scroll axis, in document order. -/
def getItemPositions (items : List Item) (direction : Option String) : List ℚ :=
  items.map (fun item => if direction = some "horizontal" then item.offsetLeft else item.offsetTop)

/-- The for-loop of getCurrentItemIndex in src/core/utils.js: scans the
remaining positions (those at index i and beyond) keeping the closest
position seen so far; a later position replaces the best one only when
strictly closer, so ties keep the earlier index. -/
def closestLoop (currentScroll : ℚ) : List ℚ → Nat → Nat → ℚ → Nat
  | [], _, closestIndex, _ => closestIndex
  | p :: rest, i, closestIndex, closestDistance =>
    let distance := |p - currentScroll|
    if distance < closestDistance then
      closestLoop currentScroll rest (i + 1) i distance
    else
      closestLoop currentScroll rest (i + 1) closestIndex closestDistance

/-- Function getCurrentItemIndex of src/core/utils.js: index of the item
nearest to the current scroll offset, or -1 when there are no items. -/
def getCurrentItemIndex (items : List Item) (direction : Option String)
    (scrollInfoCurrent : ℚ) : Int :=
  match getItemPositions items direction with
  | [] => -1
  | p0 :: rest =>
    (closestLoop scrollInfoCurrent rest 1 0 |p0 - scrollInfoCurrent| : Nat)

/-- The target-index computation of calculateNextItemScroll in
src/core/utils.js: step by the count and clamp to the valid index range. -/
def nextTargetIndex (positionsLength : Nat) (currentIndex nextAmount : Int)
    (isForward : Bool) : Int :=
  if isForward then min (currentIndex + nextAmount) ((positionsLength : Int) - 1)
  else max (currentIndex - nextAmount) 0

/-- Function calculateNextItemScroll of src/core/utils.js: delta from the
current offset to the stepped item, or 0 with a console warning when the
container has no items.  The second component carries the warnings. -/
def calculateNextItemScroll (items : List Item) (direction : Option String)
    (scrollInfoCurrent : ℚ) (nextAmount : Int) (isForward : Bool) : ℚ × List String :=
  let positions := getItemPositions items direction
  if positions.length = 0 then
    (0, ["[Scroll Indicators] No items found for next-item scrolling. Add data-scroll-indicators-item attributes to elements."])
  else
    let currentIndex := getCurrentItemIndex items direction scrollInfoCurrent
    let targetIndex := nextTargetIndex positions.length currentIndex nextAmount isForward
    let targetPosition := positions.getD targetIndex.toNat 0
    (targetPosition - scrollInfoCurrent, [])

/-- Outcome of setupScrollContainer for one container, as seen by the loop
in initializeScrollIndicators: a boolean result or a thrown exception. -/
inductive SetupOutcome where
  | ok (activated : Bool)
  | thrown (message : String)
deriving DecidableEq

/-- The try/catch around setupScrollContainer in initializeScrollIndicators
of src/core/utils.js: an exception is caught at the container boundary,
logged, and treated as a container that did not activate. -/
def setupWithCatch (outcome : SetupOutcome) : Bool :=
  match outcome with
  | .ok activated => activated
  | .thrown _ => false

/-- Function initializeScrollIndicators of src/core/utils.js, restricted to
its per-container loop: each container runs inside try/catch and bumps
successCount when its setup returns true; the aggregate is that count, never
a propagated exception. -/
def initializeScrollIndicators (outcomes : List SetupOutcome) : Nat :=
  outcomes.foldl (fun successCount outcome =>
    if setupWithCatch outcome then successCount + 1 else successCount) 0

/-- The spec sentence for the aggregate result of initialize: the number of
containers that activated successfully. -/
def activatedCount (outcomes : List SetupOutcome) : Nat :=
  (outcomes.filter (fun outcome => outcome = .ok true)).length

/-- A DOM container as the registry of src/config.js sees it: an identity
and its direction attribute. -/
structure DomContainer where
  id : Nat
  direction : Option String
deriving DecidableEq

/-- Function validateContainer of src/core/utils.js: the direction attribute
must be present, non-falsy, and one of horizontal or vertical. -/
def validateContainer (container : DomContainer) : Bool :=
  match container.direction with
  | none => false
  | some direction =>
    if direction = "" then false
    else decide (direction = "horizontal" ∨ direction = "vertical")

/-- State of the ScrollIndicators singleton of src/config.js: the registry,
the containers that received a scroll listener, and a log of the containers
on which updateIndicators ran. -/
structure EngineState where
  containers : List DomContainer
  scrollListeners : List DomContainer
  updates : List DomContainer
deriving DecidableEq

/-- Method addContainer of the ScrollIndicators class in src/config.js:
rejects invalid containers, is a no-op returning false when the container is
already registered, and otherwise pushes it, attaches a scroll listener,
runs one visibility update, and returns true. -/
def addContainer (state : EngineState) (container : DomContainer) : Bool × EngineState :=
  if !validateContainer container then (false, state)
  else if container ∈ state.containers then (false, state)
  else
    (true,
      { containers := state.containers ++ [container]
        scrollListeners := state.scrollListeners ++ [container]
        updates := state.updates ++ [container] })

theorem mem_classListAdd (l : List String) (c x : String) :
    x ∈ classListAdd l c ↔ x ∈ l ∨ x = c := by
  unfold classListAdd
  split
  · rename_i hc
    constructor
    · exact fun h => Or.inl h
    · rintro (h | rfl)
      · exact h
      · exact hc
  · simp [List.mem_append]

theorem mem_classListRemove (l : List String) (c x : String) :
    x ∈ classListRemove l c ↔ x ∈ l ∧ x ≠ c := by
  simp [classListRemove, List.mem_filter]

theorem applyVisibilityClasses_spec (b : Bool) (cls : List String) :
    ((CSS.VISIBLE ∈ applyVisibilityClasses b cls ∧ CSS.HIDDEN ∉ applyVisibilityClasses b cls) ∨
      (CSS.HIDDEN ∈ applyVisibilityClasses b cls ∧ CSS.VISIBLE ∉ applyVisibilityClasses b cls)) ∧
    (CSS.VISIBLE ∈ applyVisibilityClasses b cls ↔ b = true) := by
  have hne : CSS.HIDDEN ≠ CSS.VISIBLE := by decide
  cases b with
  | true =>
    refine ⟨Or.inl ⟨?_, ?_⟩, ?_⟩
    · simp [applyVisibilityClasses, mem_classListAdd]
    · simp [applyVisibilityClasses, mem_classListAdd, mem_classListRemove, hne]
    · simp [applyVisibilityClasses, mem_classListAdd]
  | false =>
    refine ⟨Or.inr ⟨?_, ?_⟩, ?_⟩
    · simp [applyVisibilityClasses, mem_classListAdd]
    · simp [applyVisibilityClasses, mem_classListAdd, mem_classListRemove, hne.symm]
    · simp [applyVisibilityClasses, mem_classListAdd, mem_classListRemove, hne.symm]

theorem validatePosition_start_or_end (o : Option String) (p : String)
    (h : validatePosition o = some p) : p = "start" ∨ p = "end" := by
  cases o with
  | none => exact absurd h (by simp [validatePosition])
  | some s =>
    simp only [validatePosition] at h
    split at h
    · exact absurd h (by simp)
    · split at h
      · rename_i hcond
        cases h
        exact hcond
      · exact absurd h (by simp)

theorem validateClickTargetPosition_eq_validatePosition :
    validateClickTargetPosition = validatePosition := rfl

unseal Rat.add Rat.sub Rat.mul Rat.inv in
/-- C4 (counterexample): the second copy of updateIndicatorVisibility in
src/events.js has no visibility guard, so a refresh on a zero-extent
(collapsed) region does mutate the classes: a previously visible end
indicator is rewritten to hidden, and no false result is produced. -/
theorem updateIndicatorVisibilityOld_mutates_on_collapsed :
    (updateIndicatorVisibilityOld 1 ⟨0, 0, 0, 0, 0, 0⟩
        [⟨some "end", ["is-visible"]⟩] [] "horizontal").1 =
      [⟨some "end", ["is-hidden"]⟩] ∧
    ([⟨some "end", ["is-hidden"]⟩] : List IndicatorEl) ≠ [⟨some "end", ["is-visible"]⟩] := by
  constructor
  · decide
  · decide

/-- C4 (amended): in the guarded variant of updateIndicatorVisibility
(src/events.js lines 7-67), a refresh on a region that is not visible
returns false and leaves every indicator and click target exactly as it
was. -/
theorem updateIndicatorVisibility_skips_hidden (threshold : ℚ) (el : ScrollMetrics)
    (indicators clickTargets : List IndicatorEl) (direction : String)
    (h : isElementVisible el = false) :
    updateIndicatorVisibility threshold el indicators clickTargets direction =
      (false, indicators, clickTargets) := by
  simp [updateIndicatorVisibility, h]

unseal Rat.add Rat.sub Rat.mul Rat.inv in
/-- C4 witness: a collapsed region (all extents zero) is skipped with its
indicator classes untouched. -/
theorem updateIndicatorVisibility_skips_hidden_witness :
    isElementVisible ⟨0, 0, 0, 0, 0, 0⟩ = false ∧
    updateIndicatorVisibility 1 ⟨0, 0, 0, 0, 0, 0⟩
        [⟨some "start", ["is-visible"]⟩] [⟨some "end", ["is-hidden"]⟩] "horizontal" =
      (false, [⟨some "start", ["is-visible"]⟩], [⟨some "end", ["is-hidden"]⟩]) :=
  ⟨by decide,
    updateIndicatorVisibility_skips_hidden 1 ⟨0, 0, 0, 0, 0, 0⟩
      [⟨some "start", ["is-visible"]⟩] [⟨some "end", ["is-hidden"]⟩] "horizontal" (by decide)⟩

unseal Rat.add Rat.sub Rat.mul Rat.inv in
/-- C5 (counterexample): getScrollInfo performs no clamping, so when the
viewport extent exceeds the content extent the computed maxOffset is
negative (content 100, viewport 200 gives max -100). -/
theorem getScrollInfo_max_negative :
    (getScrollInfo 1 ⟨0, 0, 100, 0, 200, 0⟩ (some "horizontal")).max = -100 ∧
    (getScrollInfo 1 ⟨0, 0, 100, 0, 200, 0⟩ (some "horizontal")).max < 0 := by
  constructor
  · decide
  · decide

/-- C5 (amended): maxOffset is the raw difference contentExtent minus
viewportExtent with no clamping; it is non-negative exactly under the DOM
guarantee that the content extent is at least the viewport extent, and both
boundary flags (getScrollInfo of src/core/utils.js and isAtEnd of
src/utils.js) are computed against this raw difference. -/
theorem getScrollInfo_max_flags (threshold : ℚ) (m : ScrollMetrics) (dir : Option String)
    (h : if dir = some "horizontal" then m.clientWidth ≤ m.scrollWidth
         else m.clientHeight ≤ m.scrollHeight) :
    0 ≤ (getScrollInfo threshold m dir).max ∧
    (getScrollInfo threshold m dir).max =
      (if dir = some "horizontal" then m.scrollWidth - m.clientWidth
       else m.scrollHeight - m.clientHeight) ∧
    (getScrollInfo threshold m dir).isAtEnd =
      decide ((getScrollInfo threshold m dir).current ≥ (getScrollInfo threshold m dir).max - threshold) ∧
    (getScrollInfo threshold m dir).isAtStart =
      decide ((getScrollInfo threshold m dir).current ≤ threshold) ∧
    isAtEnd threshold m "horizontal" =
      decide (m.scrollLeft ≥ (m.scrollWidth - m.clientWidth) - threshold) := by
  by_cases hd : dir = some "horizontal"
  · rw [if_pos hd] at h
    refine ⟨?_, ?_, ?_, ?_, ?_⟩ <;> simp [getScrollInfo, isAtEnd, hd, sub_nonneg, h]
  · rw [if_neg hd] at h
    refine ⟨?_, ?_, ?_, ?_, ?_⟩ <;> simp [getScrollInfo, isAtEnd, hd, sub_nonneg, h]

unseal Rat.add Rat.sub Rat.mul Rat.inv in
/-- C5 witness: an overflowing horizontal region (content 300, viewport 100,
offset 50) has non-negative maxOffset and flags computed against it. -/
theorem getScrollInfo_max_flags_witness :
    ((if (some "horizontal" : Option String) = some "horizontal"
        then ((100 : ℚ) : ℚ) ≤ 300 else ((0 : ℚ) : ℚ) ≤ 0) : Prop) ∧
    0 ≤ (getScrollInfo 1 ⟨50, 0, 300, 0, 100, 0⟩ (some "horizontal")).max :=
  ⟨by decide,
    (getScrollInfo_max_flags 1 ⟨50, 0, 300, 0, 100, 0⟩ (some "horizontal") (by decide)).1⟩

theorem initializeScrollIndicators_foldl (outcomes : List SetupOutcome) :
    ∀ acc : Nat,
      outcomes.foldl (fun successCount outcome =>
        if setupWithCatch outcome then successCount + 1 else successCount) acc =
      acc + activatedCount outcomes := by
  induction outcomes with
  | nil => intro acc; simp [activatedCount]
  | cons o os ih =>
    intro acc
    rw [List.foldl_cons, ih]
    cases o with
    | ok activated =>
      cases activated with
      | true =>
        simp [setupWithCatch, activatedCount, List.filter_cons]
        omega
      | false =>
        simp [setupWithCatch, activatedCount, List.filter_cons]
    | thrown msg =>
      simp [setupWithCatch, activatedCount, List.filter_cons]

/-- C8: the per-container loop of initializeScrollIndicators catches every
thrown setup error at the container boundary, so for every document state
(any sequence of per-container outcomes, exceptions included) the call
produces the plain count of successfully activated containers instead of a
propagated exception. -/
theorem initializeScrollIndicators_counts (outcomes : List SetupOutcome) :
    initializeScrollIndicators outcomes = activatedCount outcomes := by
  simpa using initializeScrollIndicators_foldl outcomes 0

/-- C9: an item-based scroll on a container with zero registered items
resolves to a delta of exactly 0 together with a console warning, for every
direction, offset, count, and side; the resolver returns normally so the
click handler completes. -/
theorem calculateNextItemScroll_no_items (direction : Option String) (current : ℚ)
    (nextAmount : Int) (isForward : Bool) :
    calculateNextItemScroll [] direction current nextAmount isForward =
      (0, ["[Scroll Indicators] No items found for next-item scrolling. Add data-scroll-indicators-item attributes to elements."]) := rfl

/-- C10: registering a container already present in the registry returns
false and changes nothing (no push, no scroll listener, no visibility
update), and a second registration of the same container right after a
first one is always such a no-op, so registering twice equals registering
once. -/
theorem addContainer_duplicate_noop (s : EngineState) (c : DomContainer) :
    (c ∈ s.containers → addContainer s c = (false, s)) ∧
    addContainer (addContainer s c).2 c = (false, (addContainer s c).2) := by
  constructor
  · intro hmem
    by_cases hv : validateContainer c
    · simp [addContainer, hv, hmem]
    · simp [addContainer, hv]
  · by_cases hv : validateContainer c
    · by_cases hmem : c ∈ s.containers
      · simp [addContainer, hv, hmem]
      · have h1 : (addContainer s c).2 =
            { containers := s.containers ++ [c]
              scrollListeners := s.scrollListeners ++ [c]
              updates := s.updates ++ [c] } := by
          simp [addContainer, hv, hmem]
        rw [h1]
        simp [addContainer, hv, List.mem_append]
    · simp [addContainer, hv]

/-- C10 witness: re-registering the already registered container 0 is
rejected with the registry, listeners, and update log unchanged. -/
theorem addContainer_duplicate_noop_witness :
    (⟨0, some "horizontal"⟩ : DomContainer) ∈
      (⟨[⟨0, some "horizontal"⟩], [⟨0, some "horizontal"⟩], [⟨0, some "horizontal"⟩]⟩ :
        EngineState).containers ∧
    addContainer ⟨[⟨0, some "horizontal"⟩], [⟨0, some "horizontal"⟩], [⟨0, some "horizontal"⟩]⟩
        ⟨0, some "horizontal"⟩ =
      (false, ⟨[⟨0, some "horizontal"⟩], [⟨0, some "horizontal"⟩], [⟨0, some "horizontal"⟩]⟩) :=
  ⟨by decide,
    (addContainer_duplicate_noop
      ⟨[⟨0, some "horizontal"⟩], [⟨0, some "horizontal"⟩], [⟨0, some "horizontal"⟩]⟩
      ⟨0, some "horizontal"⟩).1 (by decide)⟩

/-- C3: with an absent container reference the percentage fallback of
parseScrollAmount recurses on the identical arguments, so no recursion
budget ever suffices: resolving the configured default spec 25 percent
itself, or any unrecognized spec falling back to it, never terminates
(a stack overflow in JavaScript rather than a returned value). -/
theorem parseScrollAmount_diverges_without_container (efs rfs : ℚ) (dir : Option String) :
    (∀ fuel, parseScrollAmount fuel CONFIG_DEFAULT_SCROLL (some "25%") efs rfs dir none = none) ∧
    (∀ fuel, parseScrollAmount fuel CONFIG_DEFAULT_SCROLL (some "junk") efs rfs dir none = none) := by
  have h25 : ∀ fuel, parseScrollAmount fuel CONFIG_DEFAULT_SCROLL (some "25%") efs rfs dir none = none := by
    intro fuel
    induction fuel with
    | zero => rfl
    | succ n ih =>
      have hstep : parseScrollAmount (n + 1) CONFIG_DEFAULT_SCROLL (some "25%") efs rfs dir none =
          parseScrollAmount n CONFIG_DEFAULT_SCROLL (some "25%") efs rfs dir none := rfl
      rw [hstep, ih]
  refine ⟨h25, ?_⟩
  intro fuel
  cases fuel with
  | zero => rfl
  | succ n =>
    have hstep : parseScrollAmount (n + 1) CONFIG_DEFAULT_SCROLL (some "junk") efs rfs dir none =
        parseScrollAmount n CONFIG_DEFAULT_SCROLL (some "25%") efs rfs dir none := rfl
    rw [hstep, h25]

unseal Rat.add Rat.sub Rat.mul Rat.inv in
/-- C7 (counterexample): parseCSSValue of src/core/utils.js does not take
the absolute value, so the recognized numeric spec -100px resolves to the
negative value -100. -/
theorem parseCSSValue_keeps_sign :
    parseCSSValue "-100px" 400 16 16 1000 800 = some (-100) ∧ ((-100 : ℚ) < 0) := by
  constructor
  · decide
  · decide

/-- C7 (amended): every pixel value produced by parseScrollAmount of
src/utils.js is an absolute value and hence a non-negative magnitude, for
every spec string and sizing context; the parseCSSValue variant instead
preserves the sign written in the spec, and in both variants the caller
applies the side sign. -/
theorem parseScrollAmount_px_nonneg :
    ∀ (fuel : Nat) (ds : DefaultScroll) (sa : Option String) (efs rfs : ℚ)
      (dir : Option String) (cont : Option ContainerGeom) (v : ℚ),
      parseScrollAmount fuel ds sa efs rfs dir cont = some (.px v) → 0 ≤ v := by
  intro fuel
  induction fuel with
  | zero =>
    intro ds sa efs rfs dir cont v h
    exact absurd h (by simp [parseScrollAmount])
  | succ n ih =>
    intro ds sa efs rfs dir cont v h
    simp only [parseScrollAmount] at h
    repeat' split at h
    all_goals
      first
      | exact ih _ _ _ _ _ _ _ h
      | (simp only [Option.some.injEq, ScrollAmountResult.px.injEq] at h
         exact h ▸ abs_nonneg _)
      | simp at h

unseal Rat.add Rat.sub Rat.mul Rat.inv in
/-- C7 witness: the spec 200px resolves to the non-negative magnitude
200. -/
theorem parseScrollAmount_px_nonneg_witness :
    parseScrollAmount 1 CONFIG_DEFAULT_SCROLL (some "200px") 16 16 (some "horizontal") none =
      some (.px 200) ∧ (0 : ℚ) ≤ 200 :=
  ⟨by decide,
    parseScrollAmount_px_nonneg 1 CONFIG_DEFAULT_SCROLL (some "200px") 16 16
      (some "horizontal") none 200 (by decide)⟩

unseal Rat.add Rat.sub Rat.mul Rat.inv in
/-- C2 (counterexample): with maxOffset 50 (content 100, viewport 50) and
current offset 0, a forward 500px request makes performScroll write target
offset 500, exceeding maxOffset: the written target has no upper clamp. -/
theorem performScroll_overshoots_maxOffset :
    performScroll 2 CONFIG_DEFAULT_SCROLL ⟨0, 0, 100, 0, 50, 0⟩ (some "horizontal")
        (some "500px") "end" 16 16 (some ⟨50, 0⟩) =
      some ⟨"smooth", some 500, none⟩ ∧
    ((100 : ℚ) - 50 < 500) := by
  constructor
  · decide
  · decide

/-- C2 (amended): for every resolved non-boundary pixel amount, performScroll
writes the target offset max 0 (currentOffset + resolved * sign): the
backward clamp at 0 holds, so the written target is never negative, but
there is no upper clamp at maxOffset in the written value (the browser
clamps the actual scroll position). -/
theorem performScroll_lower_clamp (fuel : Nat) (ds : DefaultScroll) (el : ScrollMetrics)
    (dir : Option String) (sa : Option String) (pos : String) (efs rfs : ℚ)
    (cont : Option ContainerGeom) (amt : ℚ)
    (h : parseScrollAmount fuel ds sa efs rfs dir cont = some (.px amt)) :
    performScroll fuel ds el dir sa pos efs rfs cont =
      some (if dir = some "horizontal"
        then { behavior := "smooth"
               left := some (max 0 (el.scrollLeft + amt * (if pos = "start" then -1 else 1)))
               top := none }
        else { behavior := "smooth"
               left := none
               top := some (max 0 (el.scrollTop + amt * (if pos = "start" then -1 else 1))) }) ∧
    0 ≤ max (0 : ℚ) (el.scrollLeft + amt * (if pos = "start" then -1 else 1)) ∧
    0 ≤ max (0 : ℚ) (el.scrollTop + amt * (if pos = "start" then -1 else 1)) := by
  refine ⟨?_, le_max_left _ _, le_max_left _ _⟩
  simp only [performScroll, h]
  by_cases hd : dir = some "horizontal" <;> simp [hd]

unseal Rat.add Rat.sub Rat.mul Rat.inv in
/-- C2 witness: a backward 200px request from offset 100 resolves to the
pixel amount 200 and the written target stays non-negative. -/
theorem performScroll_lower_clamp_witness :
    parseScrollAmount 1 CONFIG_DEFAULT_SCROLL (some "200px") 16 16 (some "horizontal") none =
      some (.px 200) ∧
    0 ≤ max (0 : ℚ)
        ((⟨100, 0, 500, 0, 100, 0⟩ : ScrollMetrics).scrollLeft +
          200 * (if ("start" : String) = "start" then -1 else 1)) :=
  ⟨by decide,
    (performScroll_lower_clamp 1 CONFIG_DEFAULT_SCROLL ⟨100, 0, 500, 0, 100, 0⟩
      (some "horizontal") (some "200px") "start" 16 16 none 200 (by decide)).2.1⟩

theorem element_rule_of_apply (atStart atEnd : Bool) (a : IndicatorEl) (p : String)
    (hq : p = "start" ∨ p = "end") (e : IndicatorEl)
    (hel : e.classes = applyVisibilityClasses
      (if p = "start" then !atStart else if p = "end" then !atEnd else false) a.classes) :
    ((CSS.VISIBLE ∈ e.classes ∧ CSS.HIDDEN ∉ e.classes) ∨
      (CSS.HIDDEN ∈ e.classes ∧ CSS.VISIBLE ∉ e.classes)) ∧
    (CSS.VISIBLE ∈ e.classes ↔ ((p = "start" ∧ atStart = false) ∨ (p = "end" ∧ atEnd = false))) := by
  rw [hel]
  obtain ⟨h1, h2⟩ := applyVisibilityClasses_spec
    (if p = "start" then !atStart else if p = "end" then !atEnd else false) a.classes
  refine ⟨h1, ?_⟩
  rw [h2]
  have hse : ("start" : String) ≠ "end" := by decide
  cases hq with
  | inl h => subst h; simp [hse, Bool.not_eq_true']
  | inr h => subst h; simp [hse.symm, Bool.not_eq_true']

theorem bHiddenClasses_spec (cls : List String) :
    CSS.HIDDEN ∈ classListAdd (classListRemove cls CSS.VISIBLE) CSS.HIDDEN ∧
    CSS.VISIBLE ∉ classListAdd (classListRemove cls CSS.VISIBLE) CSS.HIDDEN := by
  have hne : CSS.VISIBLE ≠ CSS.HIDDEN := by decide
  constructor
  · simp [mem_classListAdd]
  · simp [mem_classListAdd, mem_classListRemove, hne]

theorem bVisibleClasses_spec (cls : List String) :
    CSS.VISIBLE ∈ classListRemove (classListAdd cls CSS.VISIBLE) CSS.HIDDEN ∧
    CSS.HIDDEN ∉ classListRemove (classListAdd cls CSS.VISIBLE) CSS.HIDDEN := by
  have hne : CSS.VISIBLE ≠ CSS.HIDDEN := by decide
  constructor
  · simp [mem_classListRemove, mem_classListAdd, hne]
  · simp [mem_classListRemove]

/-- C1: on a visible region, a refresh (updateIndicatorVisibility of
src/events.js, and updateIndicators of src/unnamed/part_001) leaves every
indicator and click target carrying a valid side marker with exactly one of
the two presentation classes, and with the visible class present iff the
rule holds: a start element is visible iff the region is not at start, an
end element is visible iff the region is not at end; never both classes,
never neither. -/
theorem updateIndicatorVisibility_rule (threshold : ℚ) (el : ScrollMetrics)
    (indicators clickTargets : List IndicatorEl) (direction : String) (cB : ContainerB)
    (hv : isElementVisible el = true) :
    (updateIndicatorVisibility threshold el indicators clickTargets direction).1 = true ∧
    (∀ e ∈ (updateIndicatorVisibility threshold el indicators clickTargets direction).2.1,
      ∀ p, validatePosition e.position = some p →
        ((CSS.VISIBLE ∈ e.classes ∧ CSS.HIDDEN ∉ e.classes) ∨
          (CSS.HIDDEN ∈ e.classes ∧ CSS.VISIBLE ∉ e.classes)) ∧
        (CSS.VISIBLE ∈ e.classes ↔
          ((p = "start" ∧ isAtStart threshold el direction = false) ∨
            (p = "end" ∧ isAtEnd threshold el direction = false)))) ∧
    (∀ e ∈ (updateIndicatorVisibility threshold el indicators clickTargets direction).2.2,
      ∀ p, validateClickTargetPosition e.position = some p →
        ((CSS.VISIBLE ∈ e.classes ∧ CSS.HIDDEN ∉ e.classes) ∨
          (CSS.HIDDEN ∈ e.classes ∧ CSS.VISIBLE ∉ e.classes)) ∧
        (CSS.VISIBLE ∈ e.classes ↔
          ((p = "start" ∧ isAtStart threshold el direction = false) ∨
            (p = "end" ∧ isAtEnd threshold el direction = false)))) ∧
    (∀ e ∈ (updateIndicators threshold cB).indicators,
      (e.position = some "start" ∨ e.position = some "end") →
        ((CSS.VISIBLE ∈ e.classes ∧ CSS.HIDDEN ∉ e.classes) ∨
          (CSS.HIDDEN ∈ e.classes ∧ CSS.VISIBLE ∉ e.classes)) ∧
        (CSS.VISIBLE ∈ e.classes ↔
          ((e.position = some "start" ∧
              (getScrollInfo threshold cB.metrics cB.direction).isAtStart = false) ∨
            (e.position = some "end" ∧
              (getScrollInfo threshold cB.metrics cB.direction).isAtEnd = false)))) := by
  have hguard : (!isElementVisible el) = false := by rw [hv]; rfl
  have hse : ("start" : String) ≠ "end" := by decide
  refine ⟨?_, ?_, ?_, ?_⟩
  · simp [updateIndicatorVisibility, hguard]
  · intro e he p hp
    simp only [updateIndicatorVisibility, hguard, Bool.false_eq_true, if_false] at he
    rw [List.mem_map] at he
    obtain ⟨a, ha, hfa⟩ := he
    cases hval : validatePosition a.position with
    | none =>
      simp only [hval] at hfa
      subst hfa
      rw [hval] at hp
      cases hp
    | some q =>
      simp only [hval] at hfa
      subst hfa
      simp only [hval] at hp
      cases hp
      exact element_rule_of_apply _ _ a p
        (validatePosition_start_or_end a.position p hval) _ rfl
  · intro e he p hp
    simp only [updateIndicatorVisibility, hguard, Bool.false_eq_true, if_false] at he
    rw [List.mem_map] at he
    obtain ⟨a, ha, hfa⟩ := he
    cases hval : validateClickTargetPosition a.position with
    | none =>
      simp only [hval] at hfa
      subst hfa
      rw [hval] at hp
      cases hp
    | some q =>
      simp only [hval] at hfa
      subst hfa
      simp only [hval] at hp
      cases hp
      exact element_rule_of_apply _ _ a p
        (validatePosition_start_or_end a.position p hval) _ rfl
  · intro e he hside
    simp only [updateIndicators] at he
    rw [List.mem_map] at he
    obtain ⟨a, ha, hfa⟩ := he
    split at hfa
    · rename_i hpos
      split at hfa
      · rename_i hflag
        subst hfa
        refine ⟨Or.inr (bHiddenClasses_spec a.classes), ?_⟩
        simp only [IndicatorEl.classes, IndicatorEl.position]
        constructor
        · intro hmem
          exact absurd hmem (bHiddenClasses_spec a.classes).2
        · rintro (⟨hq, hflagf⟩ | ⟨hq, hflagf⟩)
          · rw [hflag] at hflagf; cases hflagf
          · rw [hpos] at hq
            exact absurd (Option.some.inj hq) hse
      · rename_i hflag
        subst hfa
        refine ⟨Or.inl (bVisibleClasses_spec a.classes), ?_⟩
        simp only [IndicatorEl.classes, IndicatorEl.position]
        constructor
        · intro _
          left
          exact ⟨hpos, by simpa using hflag⟩
        · intro _
          exact (bVisibleClasses_spec a.classes).1
    · rename_i hpos
      split at hfa
      · rename_i hpos2
        split at hfa
        · rename_i hflag
          subst hfa
          refine ⟨Or.inr (bHiddenClasses_spec a.classes), ?_⟩
          simp only [IndicatorEl.classes, IndicatorEl.position]
          constructor
          · intro hmem
            exact absurd hmem (bHiddenClasses_spec a.classes).2
          · rintro (⟨hq, hflagf⟩ | ⟨hq, hflagf⟩)
            · exact absurd hq hpos
            · rw [hflag] at hflagf; cases hflagf
        · rename_i hflag
          subst hfa
          refine ⟨Or.inl (bVisibleClasses_spec a.classes), ?_⟩
          simp only [IndicatorEl.classes, IndicatorEl.position]
          constructor
          · intro _
            right
            exact ⟨hpos2, by simpa using hflag⟩
          · intro _
            exact (bVisibleClasses_spec a.classes).1
      · subst hfa
        cases hside with
        | inl h => exact absurd h (by assumption)
        | inr h => exact absurd h (by assumption)

unseal Rat.add Rat.sub Rat.mul Rat.inv in
/-- C1 witness: a rendered horizontal region (viewport 100 by 50, content
200, offset 50) is visible, so the refresh applies and reports true. -/
theorem updateIndicatorVisibility_rule_witness :
    isElementVisible ⟨50, 0, 200, 0, 100, 50⟩ = true ∧
    (updateIndicatorVisibility 1 ⟨50, 0, 200, 0, 100, 50⟩
        [⟨some "start", []⟩] [⟨some "end", ["is-hidden"]⟩] "horizontal").1 = true :=
  ⟨by decide,
    (updateIndicatorVisibility_rule 1 ⟨50, 0, 200, 0, 100, 50⟩
      [⟨some "start", []⟩] [⟨some "end", ["is-hidden"]⟩] "horizontal"
      ⟨some "horizontal", ⟨50, 0, 200, 0, 100, 50⟩, [⟨some "end", []⟩]⟩ (by decide)).1⟩

theorem closestLoop_spec (current : ℚ) (D : Nat → ℚ) :
    ∀ (rest : List ℚ) (i b : Nat),
      b < i →
      (∀ k, (hk : k < rest.length) → |rest.get ⟨k, hk⟩ - current| = D (i + k)) →
      (∀ j, j < b → D b < D j) →
      (∀ j, b < j → j < i → D b ≤ D j) →
      closestLoop current rest i b (D b) < i + rest.length ∧
      (∀ j, j < i + rest.length → D (closestLoop current rest i b (D b)) ≤ D j) ∧
      (∀ j, j < closestLoop current rest i b (D b) →
        D (closestLoop current rest i b (D b)) < D j) := by
  intro rest
  induction rest with
  | nil =>
    intro i b hbi hdist hlt hle
    refine ⟨by simpa [closestLoop] using hbi, ?_, ?_⟩
    · intro j hj
      simp only [closestLoop]
      rcases lt_trichotomy j b with h | h | h
      · exact le_of_lt (hlt j h)
      · subst h; exact le_refl _
      · exact hle j h (by simpa using hj)
    · intro j hj
      simp only [closestLoop] at hj ⊢
      exact hlt j hj
  | cons p rest ih =>
    intro i b hbi hdist hlt hle
    have hd0 : |p - current| = D i := by simpa using hdist 0 (by simp)
    have hlen : i + (p :: rest).length = (i + 1) + rest.length := by
      simp [List.length_cons]; omega
    have hdist' : ∀ k, (hk : k < rest.length) → |rest.get ⟨k, hk⟩ - current| = D (i + 1 + k) := by
      intro k hk
      have := hdist (k + 1) (by simpa using Nat.succ_lt_succ hk)
      simpa [Nat.add_assoc, Nat.add_comm 1 k, Nat.add_left_comm] using this
    simp only [closestLoop]
    rw [hd0]
    by_cases hcmp : D i < D b
    · rw [if_pos hcmp]
      have hlt' : ∀ j, j < i → D i < D j := by
        intro j hj
        rcases lt_trichotomy j b with h | h | h
        · exact lt_trans hcmp (hlt j h)
        · subst h; exact hcmp
        · exact lt_of_lt_of_le hcmp (hle j h hj)
      have := ih (i + 1) i (Nat.lt_succ_self i) hdist' hlt'
        (fun j h1 h2 => absurd (Nat.lt_of_le_of_lt h1 h2) (Nat.lt_irrefl _))
      rw [hlen]
      exact this
    · rw [if_neg hcmp]
      have hle' : ∀ j, b < j → j < i + 1 → D b ≤ D j := by
        intro j h1 h2
        rcases Nat.lt_or_ge j i with h | h
        · exact hle j h1 h
        · have : j = i := Nat.le_antisymm (Nat.lt_succ_iff.mp h2) h
          subst this
          exact le_of_not_lt hcmp
      have := ih (i + 1) b (Nat.lt_trans hbi (Nat.lt_succ_self i)) hdist' hlt hle'
      rw [hlen]
      exact this

theorem getCurrentItemIndex_spec (items : List Item) (direction : Option String) (current : ℚ)
    (h : getItemPositions items direction ≠ []) :
    0 ≤ getCurrentItemIndex items direction current ∧
    (getCurrentItemIndex items direction current).toNat <
      (getItemPositions items direction).length ∧
    (∀ j, j < (getItemPositions items direction).length →
      |(getItemPositions items direction).getD
          (getCurrentItemIndex items direction current).toNat 0 - current| ≤
        |(getItemPositions items direction).getD j 0 - current|) ∧
    (∀ j, j < (getCurrentItemIndex items direction current).toNat →
      |(getItemPositions items direction).getD
          (getCurrentItemIndex items direction current).toNat 0 - current| <
        |(getItemPositions items direction).getD j 0 - current|) := by
  rcases hpos : getItemPositions items direction with _ | ⟨p0, rest⟩
  · exact absurd hpos h
  · have hD0 : |p0 - current| = |(p0 :: rest).getD 0 0 - current| := by
      rw [List.getD_cons_zero]
    have hdist : ∀ k, (hk : k < rest.length) →
        |rest.get ⟨k, hk⟩ - current| = |(p0 :: rest).getD (1 + k) 0 - current| := by
      intro k hk
      rw [Nat.add_comm 1 k, List.getD_cons_succ, List.getD_eq_getElem rest 0 hk]
      simp [List.get_eq_getElem]
    have hspec := closestLoop_spec current
      (fun j => |(p0 :: rest).getD j 0 - current|) rest 1 0 Nat.one_pos hdist
      (fun j hj => absurd hj (Nat.not_lt_zero j))
      (fun j h1 h2 => absurd (Nat.lt_of_le_of_lt h1 h2) (Nat.lt_irrefl _))
    have hidx : getCurrentItemIndex items direction current =
        ((closestLoop current rest 1 0 |p0 - current| : Nat) : Int) := by
      simp only [getCurrentItemIndex, hpos]
    simp only [List.getD_cons_zero] at hspec
    rw [hidx]
    refine ⟨Int.natCast_nonneg _, ?_, ?_, ?_⟩
    · rw [Int.toNat_natCast]
      simpa [List.length_cons, Nat.add_comm] using hspec.1
    · intro j hj
      rw [Int.toNat_natCast]
      exact hspec.2.1 j (by simpa [List.length_cons, Nat.add_comm] using hj)
    · intro j hj
      rw [Int.toNat_natCast] at hj ⊢
      exact hspec.2.2 j hj

unseal Rat.add Rat.sub Rat.mul Rat.inv in
/-- C6: for every non-empty item list, current offset, positive count, and
direction flag, getCurrentItemIndex returns the index minimizing the
absolute offset difference with ties broken toward the lowest index, and
the stepped target index of calculateNextItemScroll is clamped to the valid
index range without wrapping; on offsets 0, 100, 250 with current offset 90
and one forward step the nearest index is 1 and the resolved delta is
250 - 90 = 160. -/
theorem itemStepping_spec (items : List Item) (direction : Option String) (current : ℚ)
    (amt : Int) (forward : Bool) (hne : items ≠ []) (hamt : 1 ≤ amt) :
    (0 ≤ getCurrentItemIndex items direction current ∧
      (getCurrentItemIndex items direction current).toNat <
        (getItemPositions items direction).length ∧
      (∀ j, j < (getItemPositions items direction).length →
        |(getItemPositions items direction).getD
            (getCurrentItemIndex items direction current).toNat 0 - current| ≤
          |(getItemPositions items direction).getD j 0 - current|) ∧
      (∀ j, j < (getCurrentItemIndex items direction current).toNat →
        |(getItemPositions items direction).getD
            (getCurrentItemIndex items direction current).toNat 0 - current| <
          |(getItemPositions items direction).getD j 0 - current|)) ∧
    (0 ≤ nextTargetIndex (getItemPositions items direction).length
        (getCurrentItemIndex items direction current) amt forward ∧
      nextTargetIndex (getItemPositions items direction).length
        (getCurrentItemIndex items direction current) amt forward ≤
        ((getItemPositions items direction).length : Int) - 1) ∧
    getCurrentItemIndex [⟨0, 0⟩, ⟨100, 0⟩, ⟨250, 0⟩] (some "horizontal") 90 = 1 ∧
    (calculateNextItemScroll [⟨0, 0⟩, ⟨100, 0⟩, ⟨250, 0⟩] (some "horizontal") 90 1 true).1 =
      160 := by
  have hpos : getItemPositions items direction ≠ [] := by
    simpa [getItemPositions] using hne
  have hspec := getCurrentItemIndex_spec items direction current hpos
  refine ⟨hspec, ?_, by decide, by decide⟩
  have hlen : 1 ≤ (getItemPositions items direction).length :=
    List.length_pos.mpr hpos
  obtain ⟨h0, hlt, -, -⟩ := hspec
  cases forward <;> simp only [nextTargetIndex, Bool.false_eq_true, if_false, if_true] <;>
    constructor <;> omega

unseal Rat.add Rat.sub Rat.mul Rat.inv in
/-- C6 witness: the three-item example instantiates the stepping theorem
and yields the resolved delta 160. -/
theorem itemStepping_spec_witness :
    ([⟨0, 0⟩, ⟨100, 0⟩, ⟨250, 0⟩] : List Item) ≠ [] ∧ (1 : Int) ≤ 1 ∧
    (calculateNextItemScroll [⟨0, 0⟩, ⟨100, 0⟩, ⟨250, 0⟩] (some "horizontal") 90 1 true).1 =
      160 :=
  ⟨by decide, by decide,
    (itemStepping_spec [⟨0, 0⟩, ⟨100, 0⟩, ⟨250, 0⟩] (some "horizontal") 90 1 true
      (by decide) (by decide)).2.2.2⟩
